import Mathlib

/-!
Verification development for the plant-detection application (src/app.py).

The Python source is a single Streamlit script.  The logic relevant to the
claims is embedded shallowly here:

* the per-provider identification adapters
  `detect_plant_with_groq_llama_vision`, `detect_plant_with_mistral_vision`,
  `detect_plant_with_together` (src/app.py lines 173-491),
* the fallback orchestrator `smart_plant_detection` (lines 497-536),
* the chat fallback chain `chat_with_ai` (lines 542-646),
* the AI-Chat page handlers mutating `st.session_state.chat_history`
  (lines 898-931).

Network effects are modelled by passing the outcome of each HTTP call
(exception, or status code plus the relevant body fields) as an explicit
input; the adapters are then pure functions of that outcome.  Python
exceptions raised inside an adapter's try-block (timeouts, connection
errors, unparseable response bodies) are modelled by the `HttpOutcome.exn`
constructor, since the source turns them all into the same returned error
value.  Python dicts are modelled as ordered association lists with
last-binding-wins lookup, which matches dict insertion/overwrite order for
the operations the source performs.  `json.loads` is modelled by an
executable recursive-descent parser over the RFC 8259 grammar (numbers are
kept as mantissa/exponent pairs; the Python extensions NaN/Infinity are
outside the modelled domain, and only ASCII whitespace is modelled for
`str.strip` and `\s`).
-/

/-- The character `\x7b` (opening curly brace). -/
def lbrace : Char := Char.ofNat 123

/-- The character `\x7d` (closing curly brace). -/
def rbrace : Char := Char.ofNat 125

/-- The backtick character. -/
def btick : Char := Char.ofNat 96

/-- ASCII whitespace as matched by Python's `\s` and stripped by `str.strip`. -/
def isPyWs (c : Char) : Bool :=
  c = ' ' || c = '\t' || c = '\n' || c = '\r' || c = Char.ofNat 11 || c = Char.ofNat 12

/-- Python `str.strip()` on a character list (ASCII whitespace). -/
def pythonStrip (s : List Char) : List Char :=
  ((s.dropWhile isPyWs).reverse.dropWhile isPyWs).reverse

/-- The literal pattern piece "```json" of the fence-stripping regex. -/
def fenceJson : List Char := "```json".toList

/-- One pass of Python `re.sub` with the pattern alternation used at
src/app.py lines 247, 367 and 466: at each position the engine first tries
the branch "```json" followed by greedy whitespace, then the branch greedy
whitespace followed by three backticks; the leftmost match is removed and
scanning resumes after it.  `fuel` only bounds the recursion; every step
consumes at least one character, so `fuel = s.length` never runs out. -/
def subFencesAux : Nat → List Char → List Char
  | 0, _ => []
  | _, [] => []
  | Nat.succ f, c :: rest =>
    if (c :: rest).take 7 = fenceJson then
      subFencesAux f (((c :: rest).drop 7).dropWhile isPyWs)
    else
      if (((c :: rest).drop ((c :: rest).takeWhile isPyWs).length).take 3)
          = [btick, btick, btick] then
        subFencesAux f (((c :: rest).drop ((c :: rest).takeWhile isPyWs).length).drop 3)
      else c :: subFencesAux f rest

/-- `re.sub(r'```json\s*|\s*```', '', text)` from src/app.py lines 247/367/466. -/
def subFences (s : List Char) : List Char := subFencesAux s.length s

/-- Index of the first opening brace in the text, if any
(the start of the `re.search(r'\x7b[\s\S]*\x7d', ...)` match). -/
def firstBraceIdx : List Char → Option Nat
  | [] => none
  | c :: rest =>
    if c = lbrace then some 0 else (firstBraceIdx rest).map (· + 1)

/-- Index of the last closing brace in the text, if any
(the end of the greedy `re.search(r'\x7b[\s\S]*\x7d', ...)` match). -/
def lastBraceIdx : List Char → Option Nat
  | [] => none
  | c :: rest =>
    match lastBraceIdx rest with
    | some j => some (j + 1)
    | none => if c = rbrace then some 0 else none

/-- `re.search(r'\x7b[\s\S]*\x7d', text)` (src/app.py lines 248/368/467):
the regex is greedy, so the match extends from the first opening brace in
the text to the last closing brace, provided the latter comes after the
former. -/
def jsonCandidate (s : List Char) : Option (List Char) :=
  match firstBraceIdx s, lastBraceIdx s with
  | some i, some j => if i < j then some ((s.drop i).take (j - i + 1)) else none
  | _, _ => none

/-- JSON values as produced by the model of `json.loads`.  A number is kept
as `mantissa * 10 ^ exponent`. -/
inductive Json where
  | null : Json
  | bool (b : Bool) : Json
  | num (mantissa : Int) (exp10 : Int) : Json
  | str (s : String) : Json
  | arr (elems : List Json) : Json
  | obj (fields : List (String × Json)) : Json

/-- JSON insignificant whitespace (space, tab, linefeed, carriage return). -/
def isJsonWs (c : Char) : Bool :=
  c = ' ' || c = '\t' || c = '\n' || c = '\r'

/-- Drop leading JSON whitespace. -/
def skipJsonWs (s : List Char) : List Char := s.dropWhile isJsonWs

/-- Value of a hexadecimal digit. -/
def hexVal (c : Char) : Option Nat :=
  if '0' ≤ c ∧ c ≤ '9' then some (c.toNat - 48)
  else if 'a' ≤ c ∧ c ≤ 'f' then some (c.toNat - 87)
  else if 'A' ≤ c ∧ c ≤ 'F' then some (c.toNat - 55)
  else none

/-- Decimal value of a digit string. -/
def digitsToNat (acc : Nat) : List Char → Nat
  | [] => acc
  | c :: rest => digitsToNat (acc * 10 + (c.toNat - 48)) rest

/-- Parse the remainder of a JSON string literal (the opening quote already
consumed), handling the escape sequences `json.loads` accepts and rejecting
raw control characters as Python's strict mode does. -/
def pString : List Char → List Char → Option (String × List Char)
  | [], _ => none
  | c :: rest, acc =>
    if c = '"' then some (String.mk acc, rest)
    else if c = '\\' then
      match rest with
      | [] => none
      | e :: r2 =>
        if e = '"' then pString r2 (acc ++ ['"'])
        else if e = '\\' then pString r2 (acc ++ ['\\'])
        else if e = '/' then pString r2 (acc ++ ['/'])
        else if e = 'n' then pString r2 (acc ++ ['\n'])
        else if e = 't' then pString r2 (acc ++ ['\t'])
        else if e = 'r' then pString r2 (acc ++ ['\r'])
        else if e = 'b' then pString r2 (acc ++ [Char.ofNat 8])
        else if e = 'f' then pString r2 (acc ++ [Char.ofNat 12])
        else if e = 'u' then
          match r2 with
          | h1 :: h2 :: h3 :: h4 :: r3 =>
            match hexVal h1, hexVal h2, hexVal h3, hexVal h4 with
            | some a, some b, some c2, some d =>
              let n := ((a * 16 + b) * 16 + c2) * 16 + d
              if n < 55296 ∨ (57343 < n ∧ n < 1114112) then
                pString r3 (acc ++ [Char.ofNat n])
              else none
            | _, _, _, _ => none
          | _ => none
        else none
    else if c.toNat < 32 then none
    else pString rest (acc ++ [c])

/-- Parse a JSON number per the RFC 8259 grammar (optional sign, integer
part without spurious leading zeros, optional fraction, optional exponent),
returning mantissa and power-of-ten exponent. -/
def pNumber (s : List Char) : Option (Json × List Char) :=
  let negRest : Bool × List Char :=
    match s with
    | c :: r => if c = '-' then (true, r) else (false, s)
    | [] => (false, s)
  let ip := negRest.2.takeWhile Char.isDigit
  let s2 := negRest.2.drop ip.length
  if ip.isEmpty then none
  else if 1 < ip.length ∧ ip.head? = some '0' then none
  else
    let fracRest : Option (List Char × List Char) :=
      match s2 with
      | c :: r =>
        if c = '.' then
          let fd := r.takeWhile Char.isDigit
          if fd.isEmpty then none else some (fd, r.drop fd.length)
        else some ([], s2)
      | [] => some ([], s2)
    match fracRest with
    | none => none
    | some (fd, s3) =>
      let expRest : Option (Int × List Char) :=
        match s3 with
        | c :: r =>
          if c = 'e' ∨ c = 'E' then
            let signRest : Bool × List Char :=
              match r with
              | c2 :: r2 =>
                if c2 = '-' then (true, r2)
                else if c2 = '+' then (false, r2)
                else (false, r)
              | [] => (false, r)
            let ed := signRest.2.takeWhile Char.isDigit
            if ed.isEmpty then none
            else
              let ev : Int := Int.ofNat (digitsToNat 0 ed)
              some (if signRest.1 then -ev else ev, signRest.2.drop ed.length)
          else some (0, s3)
        | [] => some (0, s3)
      match expRest with
      | none => none
      | some (ev, s4) =>
        let mant : Nat := digitsToNat 0 (ip ++ fd)
        let m : Int := if negRest.1 then -(Int.ofNat mant) else Int.ofNat mant
        some (Json.num m (ev - Int.ofNat fd.length), s4)

/-- Task of the JSON parser loop: parse one value, or continue an array or
object whose earlier members are in the accumulator. -/
inductive PTask where
  | value : PTask
  | arrTail (acc : List Json) : PTask
  | objTail (acc : List (String × Json)) : PTask

/-- One recursive-descent JSON parser step.  `fuel` bounds the nesting
depth; every recursive call is applied to a strict suffix of the input, so
`fuel = s.length + 1` suffices for any input `s`. -/
def pStep : Nat → PTask → List Char → Option (Json × List Char)
  | 0, _, _ => none
  | Nat.succ f, PTask.value, s0 =>
    match skipJsonWs s0 with
    | [] => none
    | c :: rest =>
      if c = lbrace then
        match skipJsonWs rest with
        | c2 :: r2 =>
          if c2 = rbrace then some (Json.obj [], r2)
          else pStep f (PTask.objTail []) (c2 :: r2)
        | [] => none
      else if c = '[' then
        match skipJsonWs rest with
        | c2 :: r2 =>
          if c2 = ']' then some (Json.arr [], r2)
          else
            match pStep f PTask.value (c2 :: r2) with
            | some (v, r) => pStep f (PTask.arrTail [v]) r
            | none => none
        | [] => none
      else if c = '"' then
        match pString rest [] with
        | some (str, r) => some (Json.str str, r)
        | none => none
      else if c = 't' then
        match rest with
        | 'r' :: 'u' :: 'e' :: r => some (Json.bool true, r)
        | _ => none
      else if c = 'f' then
        match rest with
        | 'a' :: 'l' :: 's' :: 'e' :: r => some (Json.bool false, r)
        | _ => none
      else if c = 'n' then
        match rest with
        | 'u' :: 'l' :: 'l' :: r => some (Json.null, r)
        | _ => none
      else pNumber (c :: rest)
  | Nat.succ f, PTask.arrTail acc, s0 =>
    match skipJsonWs s0 with
    | [] => none
    | c :: rest =>
      if c = ']' then some (Json.arr acc, rest)
      else if c = ',' then
        match pStep f PTask.value rest with
        | some (v, r) => pStep f (PTask.arrTail (acc ++ [v])) r
        | none => none
      else none
  | Nat.succ f, PTask.objTail acc, s0 =>
    match skipJsonWs s0 with
    | [] => none
    | c :: rest =>
      if c = '"' then
        match pString rest [] with
        | some (k, r1) =>
          match skipJsonWs r1 with
          | c3 :: r3 =>
            if c3 = ':' then
              match pStep f PTask.value r3 with
              | some (v, r4) =>
                match skipJsonWs r4 with
                | c5 :: r5 =>
                  if c5 = rbrace then some (Json.obj (acc ++ [(k, v)]), r5)
                  else if c5 = ',' then pStep f (PTask.objTail (acc ++ [(k, v)])) r5
                  else none
                | [] => none
              | none => none
            else none
          | [] => none
        | none => none
      else none

/-- Model of Python `json.loads`: parse one JSON document and require that
only whitespace remains. -/
def json_loads (s : List Char) : Option Json :=
  match pStep (s.length + 1) PTask.value s with
  | some (v, rest) => if (skipJsonWs rest).isEmpty then some v else none
  | none => none

/-- `json.loads` restricted to documents that are objects.  The candidate
handed to `json.loads` by the adapters always begins with an opening brace,
so a successful parse is always an object; non-object successes are
unreachable there. -/
def loadsObj (s : List Char) : Option (List (String × Json)) :=
  match json_loads s with
  | some (Json.obj fields) => some fields
  | _ => none

/-- Python dict key-membership test (`k in d`). -/
def hasKey (fields : List (String × Json)) (k : String) : Bool :=
  fields.any (fun p => p.1 == k)

/-- Python dict lookup (`d[k]`): the last binding of a key wins, matching
dict overwrite semantics on an insertion-ordered association list. -/
def objGet (fields : List (String × Json)) (k : String) : Option Json :=
  (fields.reverse.find? (fun p => p.1 == k)).map (fun p => p.2)

/-- `if k not in d: d[k] = v` (src/app.py lines 253-256, 372-375). -/
def setDefault (fields : List (String × Json)) (k : String) (v : Json) :
    List (String × Json) :=
  if hasKey fields k then fields else fields ++ [(k, v)]

/-- The default-merging performed by the Groq and Mistral adapters after a
successful parse: `plant_name` defaults to "Detected Plant" and
`confidence` to 85 (src/app.py lines 252-256 and 371-375). -/
def withDefaults (fields : List (String × Json)) : List (String × Json) :=
  setDefault (setDefault fields "plant_name" (Json.str "Detected Plant"))
    "confidence" (Json.num 85 0)

/-- The degraded payload built when no JSON object is found or parsing
fails: plant name "Detected Plant", the first 500 characters of the
processed text as description, and the given default confidence
(src/app.py lines 258-263, 273-278, 385-391, 479-485). -/
def degradedData (text : List Char) (conf : Int) : List (String × Json) :=
  [("plant_name", Json.str "Detected Plant"),
   ("description", Json.str (String.mk (text.take 500))),
   ("confidence", Json.num conf 0)]

/-- The normalized result dict every adapter call returns. -/
structure DetectResult where
  error : Bool
  message : Option String := none
  data : Option (List (String × Json)) := none
  raw_response : Option String := none
  source : Option String := none

/-- An error return `{"error": True, "message": m}`. -/
def errResult (m : String) : DetectResult :=
  { error := true, message := some m }

/-- Lookup of a key inside a result's `data` dict. -/
def dataGet (r : DetectResult) (k : String) : Option Json :=
  match r.data with
  | some fields => objGet fields k
  | none => none

/-- The fence-stripped, whitespace-stripped model text
(`re.sub(r'```json\s*|\s*```', '', text_content).strip()`). -/
def strippedText (c : String) : List Char := pythonStrip (subFences c.toList)

/-- Response-text extraction of the Groq adapter (src/app.py lines
244-281): strip fences, search greedily for a brace-delimited substring,
parse it, merge defaults; on a `JSONDecodeError` return a degraded result
with confidence 75 and source "Groq Llama Vision", and with no match a
degraded result with confidence 80. -/
def groqExtract (c : String) : DetectResult :=
  match jsonCandidate (strippedText c) with
  | some cand =>
    match loadsObj cand with
    | some fields =>
      { error := false, data := some (withDefaults fields),
        raw_response := some (String.mk (strippedText c)),
        source := some "Groq Llama 11B Vision" }
    | none =>
      { error := false, data := some (degradedData (strippedText c) 75),
        raw_response := some (String.mk (strippedText c)),
        source := some "Groq Llama Vision" }
  | none =>
    { error := false, data := some (degradedData (strippedText c) 80),
      raw_response := some (String.mk (strippedText c)),
      source := some "Groq Llama 11B Vision" }

/-- Response-text extraction of the Mistral adapter (src/app.py lines
365-393): like Groq's but without `raw_response`; a parse failure or a
missing match both yield the degraded result with confidence 80 and source
"Mistral Pixtral", while a successful parse is tagged
"Mistral Pixtral Vision". -/
def mistralExtract (c : String) : DetectResult :=
  match jsonCandidate (strippedText c) with
  | some cand =>
    match loadsObj cand with
    | some fields =>
      { error := false, data := some (withDefaults fields),
        source := some "Mistral Pixtral Vision" }
    | none =>
      { error := false, data := some (degradedData (strippedText c) 80),
        source := some "Mistral Pixtral" }
  | none =>
    { error := false, data := some (degradedData (strippedText c) 80),
      source := some "Mistral Pixtral" }

/-- Response-text extraction of the Together adapter (src/app.py lines
464-487): a successful parse returns the parsed object verbatim (no
default merging); otherwise the degraded result with confidence 80. -/
def togetherExtract (c : String) : DetectResult :=
  match jsonCandidate (strippedText c) with
  | some cand =>
    match loadsObj cand with
    | some fields =>
      { error := false, data := some fields, source := some "Together AI" }
    | none =>
      { error := false, data := some (degradedData (strippedText c) 80),
        source := some "Together AI" }
  | none =>
    { error := false, data := some (degradedData (strippedText c) 80),
      source := some "Together AI" }

/-- The parts of an HTTP response the source inspects: the status code,
the list of `choices[i].message.content` strings when the body has a
`choices` key, and (for the Groq error path) the body's `error.message`
when the body is parseable JSON. -/
structure HttpResponse where
  status : Nat
  choices : Option (List String)
  errorMessage : Option String

/-- Outcome of one `requests.post` call: an exception (timeout, connection
error, unparseable body — everything the source's except-clauses turn into
a returned error) carrying `str(e)`, or a response. -/
inductive HttpOutcome where
  | exn (msg : String) : HttpOutcome
  | resp (r : HttpResponse) : HttpOutcome

/-- `detect_plant_with_groq_llama_vision` (src/app.py lines 173-294) as a
function of the configured-key flag and the HTTP outcome. -/
def detect_plant_with_groq_llama_vision (keyPresent : Bool) (o : HttpOutcome) :
    DetectResult :=
  if keyPresent = false then errResult "Groq API key not configured"
  else
    match o with
    | HttpOutcome.exn m => errResult ("Error: " ++ m)
    | HttpOutcome.resp r =>
      if r.status = 200 then
        match r.choices with
        | some (c :: _) => groqExtract c
        | _ => errResult "No content in response"
      else
        errResult ("API Error: " ++ toString r.status ++
          (match r.errorMessage with
           | some em => " - " ++ em
           | none => ""))

/-- `detect_plant_with_mistral_vision` (src/app.py lines 300-397).  A 200
response with an empty `choices` list raises `IndexError` inside the
try-block, which the bare except turns into the returned "Error: …" value;
a 200 response without `choices` falls through to the "API Error: 200"
return at line 395. -/
def detect_plant_with_mistral_vision (keyPresent : Bool) (o : HttpOutcome) :
    DetectResult :=
  if keyPresent = false then errResult "Mistral API key not configured"
  else
    match o with
    | HttpOutcome.exn m => errResult ("Error: " ++ m)
    | HttpOutcome.resp r =>
      if r.status = 200 then
        match r.choices with
        | some (c :: _) => mistralExtract c
        | some [] => errResult "Error: list index out of range"
        | none => errResult ("API Error: " ++ toString r.status)
      else errResult ("API Error: " ++ toString r.status)

/-- `detect_plant_with_together` (src/app.py lines 403-491), same response
handling shape as the Mistral adapter. -/
def detect_plant_with_together (keyPresent : Bool) (o : HttpOutcome) :
    DetectResult :=
  if keyPresent = false then errResult "Together API key not configured"
  else
    match o with
    | HttpOutcome.exn m => errResult ("Error: " ++ m)
    | HttpOutcome.resp r =>
      if r.status = 200 then
        match r.choices with
        | some (c :: _) => togetherExtract c
        | some [] => errResult "Error: list index out of range"
        | none => errResult ("API Error: " ++ toString r.status)
      else errResult ("API Error: " ++ toString r.status)

/-- The three providers of the fallback chain. -/
inductive Provider where
  | mistral : Provider
  | groq : Provider
  | together : Provider
deriving DecidableEq

/-- The aggregated failure message of `smart_plant_detection`
(src/app.py lines 533-536). -/
def allApisFailedMessage : String :=
  "All FREE APIs failed. Please check your API keys or try again later. Make sure you have at least one valid API key configured."

/-- The aggregated failure value returned when every configured adapter
fails. -/
def allApisFailedResult : DetectResult := errResult allApisFailedMessage

/-- The result of an orchestrator run together with the adapters invoked,
in invocation order. -/
structure OrchestratorRun where
  result : DetectResult
  called : List Provider

/-- The Together stage of `smart_plant_detection` (src/app.py lines
524-536): invoked only when the Together key is configured; a non-error
adapter result is returned, otherwise the aggregated failure. -/
def togetherStage (tk : Bool) (tO : HttpOutcome) : OrchestratorRun :=
  if tk then
    if (detect_plant_with_together true tO).error = false then
      ⟨detect_plant_with_together true tO, [Provider.together]⟩
    else ⟨allApisFailedResult, [Provider.together]⟩
  else ⟨allApisFailedResult, []⟩

/-- The Groq stage of `smart_plant_detection` (src/app.py lines 514-522). -/
def groqStage (gk tk : Bool) (go tO : HttpOutcome) : OrchestratorRun :=
  if gk then
    if (detect_plant_with_groq_llama_vision true go).error = false then
      ⟨detect_plant_with_groq_llama_vision true go, [Provider.groq]⟩
    else
      ⟨(togetherStage tk tO).result, Provider.groq :: (togetherStage tk tO).called⟩
  else togetherStage tk tO

/-- `smart_plant_detection` (src/app.py lines 497-536): try Mistral, then
Groq, then Together, each only when its key is configured, returning the
first non-error adapter result and the aggregated failure if all fail. -/
def smart_plant_detection (mk gk tk : Bool) (mo go tO : HttpOutcome) :
    OrchestratorRun :=
  if mk then
    if (detect_plant_with_mistral_vision true mo).error = false then
      ⟨detect_plant_with_mistral_vision true mo, [Provider.mistral]⟩
    else
      ⟨(groqStage gk tk go tO).result, Provider.mistral :: (groqStage gk tk go tO).called⟩
  else groqStage gk tk go tO

/-- One provider block of `chat_with_ai` (src/app.py lines 560-587 for
Groq, 589-615 for Mistral, 618-644 for Together; all three share this
shape): a configured provider returns the first choice's content on a 200
response with a non-empty `choices` list, and otherwise falls through. -/
def chatTry (keyPresent : Bool) (o : HttpOutcome) : Option String :=
  if keyPresent = false then none
  else
    match o with
    | HttpOutcome.exn _ => none
    | HttpOutcome.resp r =>
      if r.status = 200 then
        match r.choices with
        | some (c :: _) => some c
        | _ => none
      else none

/-- The user-facing string returned when every chat provider fails
(src/app.py line 646). -/
def chatAllFailedMessage : String :=
  "❌ All chat APIs failed. Please check your API keys are valid. Make sure you have at least one API key (Groq, Mistral, or Together AI) configured in your secrets.toml file."

/-- `chat_with_ai` (src/app.py lines 542-646): try Groq, then Mistral,
then Together AI, returning the first generated text and otherwise the
fixed failure string. -/
def chat_with_ai (gk mk tk : Bool) (go mo tO : HttpOutcome) : String :=
  match chatTry gk go with
  | some c => c
  | none =>
    match chatTry mk mo with
    | some c => c
    | none =>
      match chatTry tk tO with
      | some c => c
      | none => chatAllFailedMessage

/-- Modelled from the spec: the extraction step the specification
describes, locating the first *balanced* brace-delimited substring of the
text (scan to the first opening brace, then to the matching closing brace
at nesting depth zero).  This is the specification's account of
`re.search(r'\x7b[\s\S]*\x7d', ...)`; it exists only to be compared with
the source's greedy behaviour `jsonCandidate`. -/
def takeBalanced : List Char → Nat → List Char → Option (List Char)
  | [], _, _ => none
  | c :: rest, depth, acc =>
    if c = lbrace then takeBalanced rest (depth + 1) (acc ++ [c])
    else if c = rbrace then
      if depth = 1 then some (acc ++ [c])
      else takeBalanced rest (depth - 1) (acc ++ [c])
    else takeBalanced rest depth (acc ++ [c])

/-- Modelled from the spec: "locates the first balanced \x7b...\x7d JSON
object substring within the text" (spec.md section 4.1). -/
def firstBalancedBraces : List Char → Option (List Char)
  | [] => none
  | c :: rest =>
    if c = lbrace then takeBalanced rest 1 [c]
    else firstBalancedBraces rest

/-- Role of a chat message. -/
inductive Role where
  | user : Role
  | assistant : Role
deriving DecidableEq

/-- One entry of `st.session_state.chat_history`. -/
structure ChatMsg where
  role : Role
  content : String
deriving DecidableEq

/-- The fixed quick-question texts of the AI Chat page
(src/app.py lines 910-915). -/
def questions : List String :=
  ["Best plants for Egyptian summer?",
   "How to deal with aphids?",
   "Indoor plants for apartments?",
   "When to fertilize roses?"]

/-- The send handler of the AI Chat page (src/app.py lines 898-905):
when the send button was pressed and the input is non-empty (Python
truthiness of a string), append the user message and then the assistant
response. -/
def sendHandler (sendBtn : Bool) (userInput response : String)
    (h : List ChatMsg) : List ChatMsg :=
  if sendBtn ∧ userInput ≠ "" then
    h ++ [⟨Role.user, userInput⟩, ⟨Role.assistant, response⟩]
  else h

/-- A quick-question button handler (src/app.py lines 908-925): the
buttons are rendered only when the history is empty; clicking button `i`
appends the question and then the assistant response. -/
def quickHandler (i : Nat) (response : String) (h : List ChatMsg) :
    List ChatMsg :=
  if h.length = 0 then
    match questions.get? i with
    | some q => h ++ [⟨Role.user, q⟩, ⟨Role.assistant, response⟩]
    | none => h
  else h

/-- The clear-chat handler (src/app.py lines 928-931): rendered only when
the history is non-empty; clicking resets it to the empty list. -/
def clearHandler (h : List ChatMsg) : List ChatMsg :=
  if h.length > 0 then [] else h

/-- The pairing invariant of the chat history: an alternating sequence of
(non-empty) user messages each immediately followed by one assistant
message. -/
inductive WellPaired : List ChatMsg → Prop
  | nil : WellPaired []
  | pair (m r : String) (rest : List ChatMsg) :
      m ≠ "" → WellPaired rest →
      WellPaired (⟨Role.user, m⟩ :: ⟨Role.assistant, r⟩ :: rest)

/-- Boolean substring test, used to state facts about the fixed failure
messages. -/
def containsSub : List Char → List Char → Bool
  | pat, [] => pat.isEmpty
  | pat, c :: rest => pat.isPrefixOf (c :: rest) || containsSub pat rest

/-- The combined candidate-search-then-parse step shared by the three
adapters: the greedy brace-delimited substring of the processed text,
parsed as a JSON object. -/
def extractedObj (c : String) : Option (List (String × Json)) :=
  (jsonCandidate (strippedText c)).bind loadsObj

/-- The example response text of the specification: a fenced JSON object
embedded in surrounding prose. -/
def aloeText : String :=
  "Sure! Here is the identification:\n```json\n\x7b\"plant_name\":\"Aloe Vera\",\"confidence\":92\x7d\n```\nHope this helps."

/-- A response text on which the greedy brace search and the first
balanced brace search disagree: the prose after the JSON object contains a
further closing brace. -/
def strayBraceText : String :=
  "\x7b\"plant_name\": \"Aloe Vera\", \"confidence\": 92\x7d Note: a stray \x7d appears later in this prose."

theorem objGet_append_self (l : List (String × Json)) (k : String) (v : Json) :
    objGet (l ++ [(k, v)]) k = some v := by
  simp [objGet, List.find?]

theorem objGet_append_ne (l : List (String × Json)) (k k' : String) (v : Json)
    (h : (k == k') = false) : objGet (l ++ [(k, v)]) k' = objGet l k' := by
  simp [objGet, List.find?, h]

theorem hasKey_append_single (l : List (String × Json)) (k k' : String) (v : Json) :
    hasKey (l ++ [(k, v)]) k' = (hasKey l k' || (k == k')) := by
  simp [hasKey]

theorem objGet_degraded_plant (t : List Char) (conf : Int) :
    objGet (degradedData t conf) "plant_name" = some (Json.str "Detected Plant") := by
  rfl

theorem objGet_degraded_desc (t : List Char) (conf : Int) :
    objGet (degradedData t conf) "description"
      = some (Json.str (String.mk (t.take 500))) := by
  rfl

theorem objGet_degraded_conf (t : List Char) (conf : Int) :
    objGet (degradedData t conf) "confidence" = some (Json.num conf 0) := by
  rfl

theorem mistralExtract_error (c : String) : (mistralExtract c).error = false := by
  unfold mistralExtract
  cases hj : jsonCandidate (strippedText c) with
  | none => simp
  | some cand =>
    cases hl : loadsObj cand with
    | none => simp [hl]
    | some fields => simp [hl]

theorem mistralExtract_source (c : String) :
    (mistralExtract c).source = some "Mistral Pixtral Vision"
      ∨ (mistralExtract c).source = some "Mistral Pixtral" := by
  unfold mistralExtract
  cases hj : jsonCandidate (strippedText c) with
  | none => simp
  | some cand =>
    cases hl : loadsObj cand with
    | none => simp [hl]
    | some fields => simp [hl]

theorem groqExtract_error (c : String) : (groqExtract c).error = false := by
  unfold groqExtract
  cases hj : jsonCandidate (strippedText c) with
  | none => simp
  | some cand =>
    cases hl : loadsObj cand with
    | none => simp [hl]
    | some fields => simp [hl]

theorem groqExtract_source (c : String) :
    (groqExtract c).source = some "Groq Llama 11B Vision"
      ∨ (groqExtract c).source = some "Groq Llama Vision" := by
  unfold groqExtract
  cases hj : jsonCandidate (strippedText c) with
  | none => simp
  | some cand =>
    cases hl : loadsObj cand with
    | none => simp [hl]
    | some fields => simp [hl]

theorem togetherExtract_error (c : String) : (togetherExtract c).error = false := by
  unfold togetherExtract
  cases hj : jsonCandidate (strippedText c) with
  | none => simp
  | some cand =>
    cases hl : loadsObj cand with
    | none => simp [hl]
    | some fields => simp [hl]

theorem togetherExtract_source (c : String) :
    (togetherExtract c).source = some "Together AI" := by
  unfold togetherExtract
  cases hj : jsonCandidate (strippedText c) with
  | none => simp
  | some cand =>
    cases hl : loadsObj cand with
    | none => simp [hl]
    | some fields => simp [hl]

theorem firstBraceIdx_spec (s : List Char) : ∀ i, firstBraceIdx s = some i →
    i < s.length ∧ s.getD i ' ' = lbrace ∧ ∀ k, k < i → s.getD k ' ' ≠ lbrace := by
  induction s with
  | nil => intro i h; simp [firstBraceIdx] at h
  | cons c rest ih =>
    intro i h
    unfold firstBraceIdx at h
    by_cases hc : c = lbrace
    · rw [if_pos hc] at h
      cases h
      exact ⟨Nat.succ_pos _, by simpa using hc, fun k hk => absurd hk (Nat.not_lt_zero k)⟩
    · rw [if_neg hc] at h
      rcases Option.map_eq_some'.mp h with ⟨j, hj, rfl⟩
      obtain ⟨hlen, hget, hbefore⟩ := ih j hj
      refine ⟨by simpa using Nat.succ_lt_succ hlen, by simpa using hget, ?_⟩
      intro k hk
      cases k with
      | zero => simpa using hc
      | succ k2 =>
        have := hbefore k2 (Nat.lt_of_succ_lt_succ hk)
        simpa using this

theorem lastBraceIdx_none (s : List Char) (h : lastBraceIdx s = none) :
    ∀ k, k < s.length → s.getD k ' ' ≠ rbrace := by
  induction s with
  | nil => intro k hk; simp at hk
  | cons c rest ih =>
    intro k hk
    unfold lastBraceIdx at h
    cases hr : lastBraceIdx rest with
    | some j => rw [hr] at h; cases h
    | none =>
      rw [hr] at h
      by_cases hc : c = rbrace
      · rw [if_pos hc] at h; cases h
      · cases k with
        | zero => simpa using hc
        | succ k2 =>
          have := ih hr k2 (by simpa using Nat.lt_of_succ_lt_succ hk)
          simpa using this

theorem lastBraceIdx_spec (s : List Char) : ∀ j, lastBraceIdx s = some j →
    j < s.length ∧ s.getD j ' ' = rbrace
      ∧ ∀ k, j < k → k < s.length → s.getD k ' ' ≠ rbrace := by
  induction s with
  | nil => intro j h; simp [lastBraceIdx] at h
  | cons c rest ih =>
    intro j h
    unfold lastBraceIdx at h
    cases hr : lastBraceIdx rest with
    | some j2 =>
      rw [hr] at h
      cases h
      obtain ⟨hlen, hget, hafter⟩ := ih j2 hr
      refine ⟨by simpa using Nat.succ_lt_succ hlen, by simpa using hget, ?_⟩
      intro k hk1 hk2
      cases k with
      | zero => exact absurd hk1 (Nat.not_lt_zero _)
      | succ k2 =>
        have := hafter k2 (Nat.lt_of_succ_lt_succ hk1)
          (by simpa using Nat.lt_of_succ_lt_succ hk2)
        simpa using this
    | none =>
      rw [hr] at h
      by_cases hc : c = rbrace
      · rw [if_pos hc] at h
        cases h
        refine ⟨Nat.succ_pos _, by simpa using hc, ?_⟩
        intro k hk1 hk2
        cases k with
        | zero => exact absurd hk1 (Nat.not_lt_zero _)
        | succ k2 =>
          have := lastBraceIdx_none rest hr k2 (by simpa using Nat.lt_of_succ_lt_succ hk2)
          simpa using this
      · rw [if_neg hc] at h; cases h

/-- C4.  The claim says the extraction step locates the *first balanced*
brace-delimited JSON substring.  The source's regex `\x7b[\s\S]*\x7d` is
greedy: it spans from the first opening brace to the *last* closing brace
of the whole text.  On `strayBraceText`, whose prose after the JSON object
contains one more closing brace, the first balanced substring parses to the
Aloe Vera object, but the adapters' extraction parses the longer greedy
span, fails, and degrades to "Detected Plant" — refuting the claim as
stated. -/
theorem claim4_counterexample :
    ((firstBalancedBraces (strippedText strayBraceText)).bind
        (fun t => (loadsObj t).bind (fun f => objGet f "plant_name")))
      = some (Json.str "Aloe Vera")
    ∧ dataGet (groqExtract strayBraceText) "plant_name"
        = some (Json.str "Detected Plant")
    ∧ dataGet (mistralExtract strayBraceText) "plant_name"
        = some (Json.str "Detected Plant")
    ∧ dataGet (togetherExtract strayBraceText) "plant_name"
        = some (Json.str "Detected Plant") :=
  ⟨rfl, rfl, rfl, rfl⟩

/-- C4 (amended).  The extraction step strips surrounding code-fence
markers and locates the substring of the processed text extending from the
first opening brace to the *last* closing brace (the regex is greedy), not
the first balanced object; it then parses that substring.  In particular,
for a text containing a fenced Aloe Vera JSON object embedded in prose
with no other braces, extraction returns plant name "Aloe Vera" and
confidence 92. -/
theorem claim4_amended (s : List Char) (i j : Nat)
    (h1 : firstBraceIdx s = some i) (h2 : lastBraceIdx s = some j)
    (hij : i < j) :
    jsonCandidate s = some ((s.drop i).take (j - i + 1))
    ∧ s.getD i ' ' = lbrace ∧ (∀ k, k < i → s.getD k ' ' ≠ lbrace)
    ∧ s.getD j ' ' = rbrace ∧ (∀ k, j < k → k < s.length → s.getD k ' ' ≠ rbrace)
    ∧ dataGet (groqExtract aloeText) "plant_name" = some (Json.str "Aloe Vera")
    ∧ dataGet (groqExtract aloeText) "confidence" = some (Json.num 92 0)
    ∧ dataGet (mistralExtract aloeText) "plant_name" = some (Json.str "Aloe Vera")
    ∧ dataGet (mistralExtract aloeText) "confidence" = some (Json.num 92 0) := by
  obtain ⟨_, hfg, hfb⟩ := firstBraceIdx_spec s i h1
  obtain ⟨_, hlg, hla⟩ := lastBraceIdx_spec s j h2
  exact ⟨by simp [jsonCandidate, h1, h2, hij], hfg, hfb, hlg, hla,
    rfl, rfl, rfl, rfl⟩

/-- Witness for C4 (amended) at the concrete text "x\x7by\x7dz". -/
theorem claim4_witness :
    jsonCandidate "x\x7by\x7dz".toList
      = some (("x\x7by\x7dz".toList.drop 1).take 3) :=
  (claim4_amended "x\x7by\x7dz".toList 1 3 rfl rfl (by decide)).1

/-- C5.  The claim says *every* identification adapter merges defaults
into a successfully parsed object.  The Together adapter does not: on a
200 response whose content is the empty JSON object, the parse succeeds
and the returned data is the parsed object verbatim, with no `plant_name`
key at all — refuting the claim as stated. -/
theorem claim5_counterexample :
    (detect_plant_with_together true
        (HttpOutcome.resp ⟨200, some ["\x7b\x7d"], none⟩)).error = false
    ∧ extractedObj "\x7b\x7d" = some []
    ∧ (detect_plant_with_together true
        (HttpOutcome.resp ⟨200, some ["\x7b\x7d"], none⟩)).data = some []
    ∧ hasKey [] "plant_name" = false
    ∧ dataGet (detect_plant_with_together true
        (HttpOutcome.resp ⟨200, some ["\x7b\x7d"], none⟩)) "plant_name" = none :=
  ⟨rfl, rfl, rfl, rfl, rfl⟩

/-- C5 (amended).  For the Groq and Mistral adapters, a successfully
parsed object is returned merged with defaults: `plant_name` defaults to
"Detected Plant" and `confidence` to 85 (within the documented 75–85
range) when those keys are absent.  The Together adapter returns the
parsed object unchanged, with no defaults merged. -/
theorem claim5_amended (c : String) (fields : List (String × Json))
    (h : extractedObj c = some fields) :
    (groqExtract c).data = some (withDefaults fields)
    ∧ (mistralExtract c).data = some (withDefaults fields)
    ∧ (togetherExtract c).data = some fields
    ∧ (hasKey fields "plant_name" = false →
        objGet (withDefaults fields) "plant_name" = some (Json.str "Detected Plant"))
    ∧ (hasKey fields "confidence" = false →
        objGet (withDefaults fields) "confidence" = some (Json.num 85 0)) := by
  rcases Option.bind_eq_some.mp h with ⟨cand, hc, hl⟩
  refine ⟨?_, ?_, ?_, ?_, ?_⟩
  · simp [groqExtract, hc, hl]
  · simp [mistralExtract, hc, hl]
  · simp [togetherExtract, hc, hl]
  · intro hpn
    have h1 : setDefault fields "plant_name" (Json.str "Detected Plant")
        = fields ++ [("plant_name", Json.str "Detected Plant")] := by
      simp [setDefault, hpn]
    have hck : hasKey (fields ++ [("plant_name", Json.str "Detected Plant")]) "confidence"
        = hasKey fields "confidence" := by
      rw [hasKey_append_single]
      simp
    unfold withDefaults
    rw [h1]
    by_cases hcf : hasKey fields "confidence" = true
    · have h2 : setDefault (fields ++ [("plant_name", Json.str "Detected Plant")])
          "confidence" (Json.num 85 0)
          = fields ++ [("plant_name", Json.str "Detected Plant")] := by
        simp [setDefault, hck, hcf]
      rw [h2]
      exact objGet_append_self fields "plant_name" (Json.str "Detected Plant")
    · have h2 : setDefault (fields ++ [("plant_name", Json.str "Detected Plant")])
          "confidence" (Json.num 85 0)
          = (fields ++ [("plant_name", Json.str "Detected Plant")])
              ++ [("confidence", Json.num 85 0)] := by
        simp [setDefault, hck, hcf]
      rw [h2, objGet_append_ne _ "confidence" "plant_name" _ (by decide)]
      exact objGet_append_self fields "plant_name" (Json.str "Detected Plant")
  · intro hcf
    unfold withDefaults
    by_cases hpn : hasKey fields "plant_name" = true
    · have h1 : setDefault fields "plant_name" (Json.str "Detected Plant") = fields := by
        simp [setDefault, hpn]
      have h2 : setDefault fields "confidence" (Json.num 85 0)
          = fields ++ [("confidence", Json.num 85 0)] := by
        simp [setDefault, hcf]
      rw [h1, h2]
      exact objGet_append_self fields "confidence" (Json.num 85 0)
    · have h1 : setDefault fields "plant_name" (Json.str "Detected Plant")
          = fields ++ [("plant_name", Json.str "Detected Plant")] := by
        simp [setDefault, hpn]
      have hck : hasKey (fields ++ [("plant_name", Json.str "Detected Plant")]) "confidence"
          = hasKey fields "confidence" := by
        rw [hasKey_append_single]
        simp
      have h2 : setDefault (fields ++ [("plant_name", Json.str "Detected Plant")])
          "confidence" (Json.num 85 0)
          = (fields ++ [("plant_name", Json.str "Detected Plant")])
              ++ [("confidence", Json.num 85 0)] := by
        simp [setDefault, hck, hcf]
      rw [h1, h2]
      exact objGet_append_self _ "confidence" (Json.num 85 0)

/-- Witness for C5 (amended) at the concrete content "\x7b\"a\":1\x7d". -/
theorem claim5_witness :
    (groqExtract "\x7b\"a\":1\x7d").data
      = some (withDefaults [("a", Json.num 1 0)]) :=
  (claim5_amended "\x7b\"a\":1\x7d" [("a", Json.num 1 0)] rfl).1

/-- C6.  For every response text in which the greedy brace search finds
nothing, or the found substring fails to parse as a JSON object, each of
the three adapters' extraction steps returns a non-error degraded result:
plant name "Detected Plant", description equal to the first 500 characters
of the fence-stripped (and whitespace-stripped) text, and a default
confidence within 75–85 (75 on Groq's parse-failure path, 80 otherwise). -/
theorem claim6_degraded (c : String)
    (h : jsonCandidate (strippedText c) = none
      ∨ ∃ cand, jsonCandidate (strippedText c) = some cand ∧ loadsObj cand = none) :
    ((groqExtract c).error = false
      ∧ dataGet (groqExtract c) "plant_name" = some (Json.str "Detected Plant")
      ∧ dataGet (groqExtract c) "description"
          = some (Json.str (String.mk ((strippedText c).take 500)))
      ∧ ∃ k : Int, dataGet (groqExtract c) "confidence" = some (Json.num k 0)
          ∧ 75 ≤ k ∧ k ≤ 85)
    ∧ ((mistralExtract c).error = false
      ∧ dataGet (mistralExtract c) "plant_name" = some (Json.str "Detected Plant")
      ∧ dataGet (mistralExtract c) "description"
          = some (Json.str (String.mk ((strippedText c).take 500)))
      ∧ ∃ k : Int, dataGet (mistralExtract c) "confidence" = some (Json.num k 0)
          ∧ 75 ≤ k ∧ k ≤ 85)
    ∧ ((togetherExtract c).error = false
      ∧ dataGet (togetherExtract c) "plant_name" = some (Json.str "Detected Plant")
      ∧ dataGet (togetherExtract c) "description"
          = some (Json.str (String.mk ((strippedText c).take 500)))
      ∧ ∃ k : Int, dataGet (togetherExtract c) "confidence" = some (Json.num k 0)
          ∧ 75 ≤ k ∧ k ≤ 85) := by
  rcases h with hnone | ⟨cand, hc, hl⟩
  · refine ⟨⟨?_, ?_, ?_, ⟨80, ?_, by norm_num, by norm_num⟩⟩,
      ⟨?_, ?_, ?_, ⟨80, ?_, by norm_num, by norm_num⟩⟩,
      ⟨?_, ?_, ?_, ⟨80, ?_, by norm_num, by norm_num⟩⟩⟩ <;>
      simp [groqExtract, mistralExtract, togetherExtract, hnone, dataGet,
        objGet_degraded_plant, objGet_degraded_desc, objGet_degraded_conf]
  · refine ⟨⟨?_, ?_, ?_, ⟨75, ?_, by norm_num, by norm_num⟩⟩,
      ⟨?_, ?_, ?_, ⟨80, ?_, by norm_num, by norm_num⟩⟩,
      ⟨?_, ?_, ?_, ⟨80, ?_, by norm_num, by norm_num⟩⟩⟩ <;>
      simp [groqExtract, mistralExtract, togetherExtract, hc, hl, dataGet,
        objGet_degraded_plant, objGet_degraded_desc, objGet_degraded_conf]

/-- Witness for C6 at a concrete text containing no JSON object. -/
theorem claim6_witness :
    dataGet (groqExtract "no json object here") "plant_name"
      = some (Json.str "Detected Plant") :=
  (claim6_degraded "no json object here" (Or.inl rfl)).1.2.1

theorem mistral_source_of_ok (o : HttpOutcome)
    (h : (detect_plant_with_mistral_vision true o).error = false) :
    (detect_plant_with_mistral_vision true o).source = some "Mistral Pixtral Vision"
      ∨ (detect_plant_with_mistral_vision true o).source = some "Mistral Pixtral" := by
  cases o with
  | exn m => simp [detect_plant_with_mistral_vision, errResult] at h
  | resp r =>
    by_cases hs : r.status = 200
    · cases hc : r.choices with
      | none => simp [detect_plant_with_mistral_vision, hs, hc, errResult] at h
      | some l =>
        cases l with
        | nil => simp [detect_plant_with_mistral_vision, hs, hc, errResult] at h
        | cons c cs =>
          have := mistralExtract_source c
          simpa [detect_plant_with_mistral_vision, hs, hc] using this
    · simp [detect_plant_with_mistral_vision, hs, errResult] at h

theorem groq_source_of_ok (o : HttpOutcome)
    (h : (detect_plant_with_groq_llama_vision true o).error = false) :
    (detect_plant_with_groq_llama_vision true o).source = some "Groq Llama 11B Vision"
      ∨ (detect_plant_with_groq_llama_vision true o).source = some "Groq Llama Vision" := by
  cases o with
  | exn m => simp [detect_plant_with_groq_llama_vision, errResult] at h
  | resp r =>
    by_cases hs : r.status = 200
    · cases hc : r.choices with
      | none => simp [detect_plant_with_groq_llama_vision, hs, hc, errResult] at h
      | some l =>
        cases l with
        | nil => simp [detect_plant_with_groq_llama_vision, hs, hc, errResult] at h
        | cons c cs =>
          have := groqExtract_source c
          simpa [detect_plant_with_groq_llama_vision, hs, hc] using this
    · simp [detect_plant_with_groq_llama_vision, hs, errResult] at h

theorem together_source_of_ok (o : HttpOutcome)
    (h : (detect_plant_with_together true o).error = false) :
    (detect_plant_with_together true o).source = some "Together AI" := by
  cases o with
  | exn m => simp [detect_plant_with_together, errResult] at h
  | resp r =>
    by_cases hs : r.status = 200
    · cases hc : r.choices with
      | none => simp [detect_plant_with_together, hs, hc, errResult] at h
      | some l =>
        cases l with
        | nil => simp [detect_plant_with_together, hs, hc, errResult] at h
        | cons c cs =>
          have := togetherExtract_source c
          simpa [detect_plant_with_together, hs, hc] using this
    · simp [detect_plant_with_together, hs, errResult] at h

theorem togetherStage_called (tk : Bool) (tO : HttpOutcome) :
    ∀ p ∈ (togetherStage tk tO).called, p = Provider.together := by
  intro p hp
  unfold togetherStage at hp
  split at hp
  · split at hp <;> simpa using hp
  · simp at hp

theorem groqStage_called (gk tk : Bool) (go tO : HttpOutcome) :
    ∀ p ∈ (groqStage gk tk go tO).called,
      p = Provider.groq ∨ p = Provider.together := by
  intro p hp
  unfold groqStage at hp
  split at hp
  · split at hp
    · simp at hp
      exact Or.inl hp
    · simp at hp
      rcases hp with rfl | hp
      · exact Or.inl rfl
      · exact Or.inr (togetherStage_called tk tO p hp)
  · exact Or.inr (togetherStage_called tk tO p hp)

theorem togetherStage_allfail (tk : Bool) (tO : HttpOutcome)
    (h : tk = true → (detect_plant_with_together true tO).error = true) :
    (togetherStage tk tO).result = allApisFailedResult := by
  cases tk with
  | false => rfl
  | true => simp [togetherStage, h rfl]

theorem groqStage_allfail (gk tk : Bool) (go tO : HttpOutcome)
    (hg : gk = true → (detect_plant_with_groq_llama_vision true go).error = true)
    (ht : tk = true → (detect_plant_with_together true tO).error = true) :
    (groqStage gk tk go tO).result = allApisFailedResult := by
  cases gk with
  | false => simpa [groqStage] using togetherStage_allfail tk tO ht
  | true => simp [groqStage, hg rfl, togetherStage_allfail tk tO ht]

/-- C1.  The orchestrator `smart_plant_detection` invokes the configured
adapters strictly in priority order (Mistral, Groq, Together), stops at
the first adapter result with no error, returns exactly that adapter's
result — whose source field is the succeeding provider's label — and never
calls the later providers. -/
theorem claim1_priority_order (mk gk tk : Bool) (mo go tO : HttpOutcome) :
    (mk = true → (detect_plant_with_mistral_vision true mo).error = false →
      (smart_plant_detection mk gk tk mo go tO).result
          = detect_plant_with_mistral_vision true mo
      ∧ ((smart_plant_detection mk gk tk mo go tO).result.source
            = some "Mistral Pixtral Vision"
          ∨ (smart_plant_detection mk gk tk mo go tO).result.source
            = some "Mistral Pixtral")
      ∧ (smart_plant_detection mk gk tk mo go tO).called = [Provider.mistral])
    ∧ (gk = true → (detect_plant_with_groq_llama_vision true go).error = false →
        (mk = true → (detect_plant_with_mistral_vision true mo).error = true) →
      (smart_plant_detection mk gk tk mo go tO).result
          = detect_plant_with_groq_llama_vision true go
      ∧ ((smart_plant_detection mk gk tk mo go tO).result.source
            = some "Groq Llama 11B Vision"
          ∨ (smart_plant_detection mk gk tk mo go tO).result.source
            = some "Groq Llama Vision")
      ∧ (smart_plant_detection mk gk tk mo go tO).called
          = (if mk then [Provider.mistral] else []) ++ [Provider.groq]
      ∧ Provider.together ∉ (smart_plant_detection mk gk tk mo go tO).called)
    ∧ (tk = true → (detect_plant_with_together true tO).error = false →
        (mk = true → (detect_plant_with_mistral_vision true mo).error = true) →
        (gk = true → (detect_plant_with_groq_llama_vision true go).error = true) →
      (smart_plant_detection mk gk tk mo go tO).result
          = detect_plant_with_together true tO
      ∧ (smart_plant_detection mk gk tk mo go tO).result.source = some "Together AI"
      ∧ (smart_plant_detection mk gk tk mo go tO).called
          = (if mk then [Provider.mistral] else [])
            ++ (if gk then [Provider.groq] else []) ++ [Provider.together]) := by
  refine ⟨?_, ?_, ?_⟩
  · intro hmk hok
    subst hmk
    have hrun : smart_plant_detection true gk tk mo go tO
        = ⟨detect_plant_with_mistral_vision true mo, [Provider.mistral]⟩ := by
      simp [smart_plant_detection, hok]
    rw [hrun]
    exact ⟨rfl, mistral_source_of_ok mo hok, rfl⟩
  · intro hgk hok hmfail
    subst hgk
    have hgrun : groqStage true tk go tO
        = ⟨detect_plant_with_groq_llama_vision true go, [Provider.groq]⟩ := by
      simp [groqStage, hok]
    cases mk with
    | false =>
      have hrun : smart_plant_detection false true tk mo go tO
          = ⟨detect_plant_with_groq_llama_vision true go, [Provider.groq]⟩ := by
        simp [smart_plant_detection, hgrun]
      rw [hrun]
      exact ⟨rfl, groq_source_of_ok go hok, by simp, by simp⟩
    | true =>
      have hrun : smart_plant_detection true true tk mo go tO
          = ⟨detect_plant_with_groq_llama_vision true go,
             [Provider.mistral, Provider.groq]⟩ := by
        simp [smart_plant_detection, hmfail rfl, hgrun]
      rw [hrun]
      exact ⟨rfl, groq_source_of_ok go hok, by simp, by simp⟩
  · intro htk hok hmfail hgfail
    subst htk
    have htrun : togetherStage true tO
        = ⟨detect_plant_with_together true tO, [Provider.together]⟩ := by
      simp [togetherStage, hok]
    cases mk with
    | false =>
      cases gk with
      | false =>
        have hrun : smart_plant_detection false false true mo go tO
            = ⟨detect_plant_with_together true tO, [Provider.together]⟩ := by
          simp [smart_plant_detection, groqStage, htrun]
        rw [hrun]
        exact ⟨rfl, together_source_of_ok tO hok, by simp⟩
      | true =>
        have hrun : smart_plant_detection false true true mo go tO
            = ⟨detect_plant_with_together true tO,
               [Provider.groq, Provider.together]⟩ := by
          simp [smart_plant_detection, groqStage, hgfail rfl, htrun]
        rw [hrun]
        exact ⟨rfl, together_source_of_ok tO hok, by simp⟩
    | true =>
      cases gk with
      | false =>
        have hrun : smart_plant_detection true false true mo go tO
            = ⟨detect_plant_with_together true tO,
               [Provider.mistral, Provider.together]⟩ := by
          simp [smart_plant_detection, groqStage, hmfail rfl, htrun]
        rw [hrun]
        exact ⟨rfl, together_source_of_ok tO hok, by simp⟩
      | true =>
        have hrun : smart_plant_detection true true true mo go tO
            = ⟨detect_plant_with_together true tO,
               [Provider.mistral, Provider.groq, Provider.together]⟩ := by
          simp [smart_plant_detection, groqStage, hmfail rfl, hgfail rfl, htrun]
        rw [hrun]
        exact ⟨rfl, together_source_of_ok tO hok, by simp⟩

/-- Witness for C1: Mistral configured and failing with a timeout, Groq
configured and succeeding on an empty JSON object. -/
theorem claim1_witness :
    (smart_plant_detection true true false (HttpOutcome.exn "timeout")
        (HttpOutcome.resp ⟨200, some ["\x7b\x7d"], none⟩)
        (HttpOutcome.exn "unused")).result
      = detect_plant_with_groq_llama_vision true
          (HttpOutcome.resp ⟨200, some ["\x7b\x7d"], none⟩) :=
  ((claim1_priority_order true true false (HttpOutcome.exn "timeout")
      (HttpOutcome.resp ⟨200, some ["\x7b\x7d"], none⟩)
      (HttpOutcome.exn "unused")).2.1 rfl rfl (fun _ => rfl)).1

/-- C2.  A provider whose API key is absent is never invoked by
`smart_plant_detection` (it never appears in the call trace, hence no
network call is made for it), and the orchestrator's outcome is completely
independent of what that provider's adapter would have returned. -/
theorem claim2_missing_key_skipped (mk gk tk : Bool)
    (mo mo2 go go2 tO tO2 : HttpOutcome) :
    (mk = false →
      smart_plant_detection mk gk tk mo go tO
          = smart_plant_detection mk gk tk mo2 go tO
      ∧ Provider.mistral ∉ (smart_plant_detection mk gk tk mo go tO).called)
    ∧ (gk = false →
      smart_plant_detection mk gk tk mo go tO
          = smart_plant_detection mk gk tk mo go2 tO
      ∧ Provider.groq ∉ (smart_plant_detection mk gk tk mo go tO).called)
    ∧ (tk = false →
      smart_plant_detection mk gk tk mo go tO
          = smart_plant_detection mk gk tk mo go tO2
      ∧ Provider.together ∉ (smart_plant_detection mk gk tk mo go tO).called) := by
  refine ⟨?_, ?_, ?_⟩
  · intro hmk
    subst hmk
    refine ⟨rfl, ?_⟩
    intro hmem
    have := groqStage_called gk tk go tO Provider.mistral
      (by simpa [smart_plant_detection] using hmem)
    rcases this with h | h <;> cases h
  · intro hgk
    subst hgk
    constructor
    · cases mk with
      | false => simp [smart_plant_detection, groqStage]
      | true =>
        by_cases hok : (detect_plant_with_mistral_vision true mo).error = false <;>
          simp [smart_plant_detection, groqStage, hok]
    · intro hmem
      cases mk with
      | false =>
        have := togetherStage_called tk tO Provider.groq
          (by simpa [smart_plant_detection, groqStage] using hmem)
        cases this
      | true =>
        by_cases hok : (detect_plant_with_mistral_vision true mo).error = false
        · simp [smart_plant_detection, hok] at hmem
        · simp [smart_plant_detection, hok, groqStage] at hmem
          have := togetherStage_called tk tO Provider.groq (by simpa using hmem)
          cases this
  · intro htk
    subst htk
    constructor
    · cases mk with
      | false =>
        cases gk with
        | false => simp [smart_plant_detection, groqStage, togetherStage]
        | true =>
          by_cases hok : (detect_plant_with_groq_llama_vision true go).error = false <;>
            simp [smart_plant_detection, groqStage, togetherStage, hok]
      | true =>
        by_cases hokm : (detect_plant_with_mistral_vision true mo).error = false
        · simp [smart_plant_detection, hokm]
        · cases gk with
          | false => simp [smart_plant_detection, groqStage, togetherStage, hokm]
          | true =>
            by_cases hok : (detect_plant_with_groq_llama_vision true go).error = false <;>
              simp [smart_plant_detection, groqStage, togetherStage, hokm, hok]
    · intro hmem
      cases mk with
      | false =>
        cases gk with
        | false => simp [smart_plant_detection, groqStage, togetherStage] at hmem
        | true =>
          by_cases hok : (detect_plant_with_groq_llama_vision true go).error = false <;>
            simp [smart_plant_detection, groqStage, togetherStage, hok] at hmem
      | true =>
        by_cases hokm : (detect_plant_with_mistral_vision true mo).error = false
        · simp [smart_plant_detection, hokm] at hmem
        · cases gk with
          | false => simp [smart_plant_detection, groqStage, togetherStage, hokm] at hmem
          | true =>
            by_cases hok : (detect_plant_with_groq_llama_vision true go).error = false <;>
              simp [smart_plant_detection, groqStage, togetherStage, hokm, hok] at hmem

/-- Witness for C2: with the Mistral key absent, the orchestrator ignores
the Mistral outcome entirely. -/
theorem claim2_witness :
    smart_plant_detection false true false (HttpOutcome.exn "would have succeeded")
        (HttpOutcome.exn "timeout") (HttpOutcome.exn "unused")
      = smart_plant_detection false true false (HttpOutcome.exn "other outcome")
        (HttpOutcome.exn "timeout") (HttpOutcome.exn "unused") :=
  ((claim2_missing_key_skipped false true false (HttpOutcome.exn "would have succeeded")
      (HttpOutcome.exn "other outcome") (HttpOutcome.exn "timeout")
      (HttpOutcome.exn "timeout") (HttpOutcome.exn "unused")
      (HttpOutcome.exn "unused")).1 rfl).1

/-- C3.  If every configured adapter fails (or none is configured), the
orchestrator returns the single aggregated failure: its error flag is
true, and its fixed message says all attempts failed, suggests checking
API keys, and suggests trying again later; it is never a success. -/
theorem claim3_all_failed (mk gk tk : Bool) (mo go tO : HttpOutcome)
    (hm : mk = true → (detect_plant_with_mistral_vision true mo).error = true)
    (hg : gk = true → (detect_plant_with_groq_llama_vision true go).error = true)
    (ht : tk = true → (detect_plant_with_together true tO).error = true) :
    (smart_plant_detection mk gk tk mo go tO).result = allApisFailedResult
    ∧ (smart_plant_detection mk gk tk mo go tO).result.error = true
    ∧ allApisFailedResult.message = some allApisFailedMessage
    ∧ containsSub "All FREE APIs failed".toList allApisFailedMessage.toList = true
    ∧ containsSub "check your API keys".toList allApisFailedMessage.toList = true
    ∧ containsSub "try again later".toList allApisFailedMessage.toList = true := by
  have hres : (smart_plant_detection mk gk tk mo go tO).result = allApisFailedResult := by
    cases mk with
    | false =>
      simpa [smart_plant_detection] using groqStage_allfail gk tk go tO hg ht
    | true =>
      have hmf := hm rfl
      simp [smart_plant_detection, hmf, groqStage_allfail gk tk go tO hg ht]
  exact ⟨hres, by rw [hres]; rfl, rfl, rfl, rfl, rfl⟩

/-- Witness for C3: all three providers configured, all three failing
with timeouts. -/
theorem claim3_witness :
    (smart_plant_detection true true true (HttpOutcome.exn "timeout")
        (HttpOutcome.exn "timeout") (HttpOutcome.exn "timeout")).result
      = allApisFailedResult :=
  (claim3_all_failed true true true (HttpOutcome.exn "timeout")
    (HttpOutcome.exn "timeout") (HttpOutcome.exn "timeout")
    (fun _ => rfl) (fun _ => rfl) (fun _ => rfl)).1

/-- C9.  The chat fallback order (Groq, Mistral, Together) differs from
the identification fallback order (Mistral, Groq, Together): when both the
Groq and Mistral keys are configured and both providers would succeed, a
chat call returns Groq's generated text while an identification call
returns the Mistral adapter's result, having invoked Mistral only. -/
theorem claim9_order_difference (tk : Bool) (mo go tO cgo cmo ctO : HttpOutcome)
    (c : String)
    (hcg : chatTry true cgo = some c)
    (hdm : (detect_plant_with_mistral_vision true mo).error = false) :
    chat_with_ai true true tk cgo cmo ctO = c
    ∧ (smart_plant_detection true true tk mo go tO).result
        = detect_plant_with_mistral_vision true mo
    ∧ (smart_plant_detection true true tk mo go tO).called = [Provider.mistral] := by
  refine ⟨?_, ?_, ?_⟩
  · simp [chat_with_ai, hcg]
  · simp [smart_plant_detection, hdm]
  · simp [smart_plant_detection, hdm]

/-- Witness for C9: both providers succeed; chat answers with Groq's
text, identification with Mistral's result. -/
theorem claim9_witness :
    chat_with_ai true true false
        (HttpOutcome.resp ⟨200, some ["Groq chat answer"], none⟩)
        (HttpOutcome.resp ⟨200, some ["Mistral chat answer"], none⟩)
        (HttpOutcome.exn "unused")
      = "Groq chat answer"
    ∧ (smart_plant_detection true true false
        (HttpOutcome.resp ⟨200, some ["\x7b\x7d"], none⟩)
        (HttpOutcome.resp ⟨200, some ["\x7b\x7d"], none⟩)
        (HttpOutcome.exn "unused")).called = [Provider.mistral] := by
  have h := claim9_order_difference false
    (HttpOutcome.resp ⟨200, some ["\x7b\x7d"], none⟩)
    (HttpOutcome.resp ⟨200, some ["\x7b\x7d"], none⟩)
    (HttpOutcome.exn "unused")
    (HttpOutcome.resp ⟨200, some ["Groq chat answer"], none⟩)
    (HttpOutcome.resp ⟨200, some ["Mistral chat answer"], none⟩)
    (HttpOutcome.exn "unused")
    "Groq chat answer" rfl rfl
  exact ⟨h.1, h.2.2⟩

/-- C7.  The claim says a generated text under roughly 10 characters is
treated as empty and triggers fallback.  `chat_with_ai` has no such
length check: on a 200 response with a non-empty choices list it returns
the content unconditionally.  Here Groq generates the 4-character "Yes."
while Mistral would produce a long answer, yet "Yes." is returned to the
caller — refuting the claim as stated. -/
theorem claim7_counterexample :
    chat_with_ai true true false
        (HttpOutcome.resp ⟨200, some ["Yes."], none⟩)
        (HttpOutcome.resp ⟨200,
          some ["Here is a long and detailed answer about plant care."], none⟩)
        (HttpOutcome.exn "unused")
      = "Yes."
    ∧ "Yes.".length < 10 :=
  ⟨rfl, by decide⟩

/-- C7 (amended).  `chat_with_ai` returns the generated text of the first
configured provider whose response has status 200 and a non-empty choices
list, regardless of the text's length — there is no minimum-length or
emptiness check; fallback to the next provider happens exactly when a
provider produces no text (missing key, exception, non-200 status, or
missing/empty choices). -/
theorem claim7_amended (gk mk tk : Bool) (go mo tO : HttpOutcome)
    (c : String) (r : HttpResponse) :
    (chatTry gk go = some c → chat_with_ai gk mk tk go mo tO = c)
    ∧ (chatTry gk go = none →
        chat_with_ai gk mk tk go mo tO = chat_with_ai false mk tk go mo tO)
    ∧ (chatTry true (HttpOutcome.resp r) = some c
        ↔ r.status = 200 ∧ ∃ cs, r.choices = some (c :: cs)) := by
  refine ⟨?_, ?_, ?_⟩
  · intro h
    simp [chat_with_ai, h]
  · intro h
    unfold chat_with_ai
    rw [h]
    rfl
  · constructor
    · intro h
      by_cases hs : r.status = 200
      · cases hc : r.choices with
        | none => simp [chatTry, hs, hc] at h
        | some l =>
          cases l with
          | nil => simp [chatTry, hs, hc] at h
          | cons c0 cs =>
            simp [chatTry, hs, hc] at h
            cases h
            exact ⟨hs, cs, rfl⟩
      · simp [chatTry, hs] at h
    · rintro ⟨hs, cs, hc⟩
      simp [chatTry, hs, hc]

/-- Witness for C7 (amended): a 2-character generated text is returned
as-is. -/
theorem claim7_witness :
    chat_with_ai true true true (HttpOutcome.resp ⟨200, some ["hi"], none⟩)
        (HttpOutcome.exn "unused") (HttpOutcome.exn "unused")
      = "hi" :=
  (claim7_amended true true true (HttpOutcome.resp ⟨200, some ["hi"], none⟩)
    (HttpOutcome.exn "unused") (HttpOutcome.exn "unused") "hi"
    ⟨200, some ["hi"], none⟩).1 rfl

/-- C8.  Every error path of the identification adapters (network
exception or timeout, non-200 status, missing choices) yields a returned
error value carrying a message — never a propagated fault — and when every
configured chat provider fails, `chat_with_ai` returns the fixed non-empty
string that points the user to checking their API keys. -/
theorem claim8_error_paths (m : String) (r : HttpResponse) (gk mk tk : Bool)
    (go mo tO : HttpOutcome) :
    ((detect_plant_with_groq_llama_vision true (HttpOutcome.exn m)).error = true
      ∧ ((detect_plant_with_groq_llama_vision true (HttpOutcome.exn m)).message).isSome = true)
    ∧ ((detect_plant_with_mistral_vision true (HttpOutcome.exn m)).error = true
      ∧ ((detect_plant_with_mistral_vision true (HttpOutcome.exn m)).message).isSome = true)
    ∧ ((detect_plant_with_together true (HttpOutcome.exn m)).error = true
      ∧ ((detect_plant_with_together true (HttpOutcome.exn m)).message).isSome = true)
    ∧ (r.status ≠ 200 →
        (detect_plant_with_groq_llama_vision true (HttpOutcome.resp r)).error = true
        ∧ ((detect_plant_with_groq_llama_vision true (HttpOutcome.resp r)).message).isSome = true
        ∧ (detect_plant_with_mistral_vision true (HttpOutcome.resp r)).error = true
        ∧ (detect_plant_with_together true (HttpOutcome.resp r)).error = true)
    ∧ (r.choices = none →
        (detect_plant_with_groq_llama_vision true (HttpOutcome.resp r)).error = true
        ∧ ((detect_plant_with_groq_llama_vision true (HttpOutcome.resp r)).message).isSome = true
        ∧ (detect_plant_with_mistral_vision true (HttpOutcome.resp r)).error = true
        ∧ (detect_plant_with_together true (HttpOutcome.resp r)).error = true)
    ∧ (chatTry gk go = none → chatTry mk mo = none → chatTry tk tO = none →
        chat_with_ai gk mk tk go mo tO = chatAllFailedMessage)
    ∧ chatAllFailedMessage ≠ ""
    ∧ containsSub "check your API keys".toList chatAllFailedMessage.toList = true := by
  refine ⟨⟨rfl, rfl⟩, ⟨rfl, rfl⟩, ⟨rfl, rfl⟩, ?_, ?_, ?_, ?_, rfl⟩
  · intro hs
    refine ⟨?_, ?_, ?_, ?_⟩ <;>
      simp [detect_plant_with_groq_llama_vision, detect_plant_with_mistral_vision,
        detect_plant_with_together, hs, errResult]
  · intro hc
    by_cases hs : r.status = 200 <;>
    · refine ⟨?_, ?_, ?_, ?_⟩ <;>
        simp [detect_plant_with_groq_llama_vision, detect_plant_with_mistral_vision,
          detect_plant_with_together, hs, hc, errResult]
  · intro h1 h2 h3
    unfold chat_with_ai
    rw [h1, h2, h3]
  · decide

/-- Witness for C8: a non-200 response, no choices, and all three chat
providers failing with exceptions. -/
theorem claim8_witness :
    chat_with_ai true true true (HttpOutcome.exn "timeout")
        (HttpOutcome.exn "timeout") (HttpOutcome.exn "timeout")
      = chatAllFailedMessage
    ∧ (detect_plant_with_groq_llama_vision true
        (HttpOutcome.resp ⟨500, none, some "rate limited"⟩)).error = true := by
  have h := claim8_error_paths "timeout" ⟨500, none, some "rate limited"⟩
    true true true (HttpOutcome.exn "timeout") (HttpOutcome.exn "timeout")
    (HttpOutcome.exn "timeout")
  exact ⟨h.2.2.2.2.2.1 rfl rfl rfl, (h.2.2.2.1 (by decide)).1⟩

theorem wellPaired_append (h : List ChatMsg) (m r : String)
    (hm : m ≠ "") (hw : WellPaired h) :
    WellPaired (h ++ [⟨Role.user, m⟩, ⟨Role.assistant, r⟩]) := by
  induction hw with
  | nil => exact WellPaired.pair m r [] hm WellPaired.nil
  | pair m2 r2 rest hm2 _ ih => exact WellPaired.pair m2 r2 _ hm2 ih

theorem questions_nonempty (i : Nat) (q : String)
    (hq : questions.get? i = some q) : q ≠ "" := by
  match i with
  | 0 => cases hq; decide
  | 1 => cases hq; decide
  | 2 => cases hq; decide
  | 3 => cases hq; decide
  | Nat.succ (Nat.succ (Nat.succ (Nat.succ i2))) => cases hq

theorem wellPaired_even (h : List ChatMsg) (hw : WellPaired h) :
    h.length % 2 = 0 := by
  induction hw with
  | nil => rfl
  | pair m r rest _ _ ih =>
    simp only [List.length_cons]
    omega

theorem wellPaired_user_nonempty (h : List ChatMsg) (hw : WellPaired h) :
    ∀ msg ∈ h, msg.role = Role.user → msg.content ≠ "" := by
  induction hw with
  | nil => intro msg hmem; cases hmem
  | pair m r rest hm _ ih =>
    intro msg hmem hrole
    rcases hmem with _ | ⟨_, hmem2⟩
    · exact hm
    · rcases hmem2 with _ | ⟨_, hmem3⟩
      · cases hrole
      · exact ih msg hmem3 hrole

theorem wellPaired_alternates (h : List ChatMsg) (hw : WellPaired h) :
    ∀ i (hi : i < h.length),
      (h.get ⟨i, hi⟩).role = if i % 2 = 0 then Role.user else Role.assistant := by
  induction hw with
  | nil => intro i hi; simp at hi
  | pair m r rest _ _ ih =>
    intro i hi
    match i with
    | 0 => rfl
    | 1 => rfl
    | Nat.succ (Nat.succ j) =>
      have hj : j < rest.length := by
        simp only [List.length_cons] at hi
        omega
      have hmod : (j + 2) % 2 = j % 2 := by omega
      have hget : ((⟨Role.user, m⟩ :: ⟨Role.assistant, r⟩ :: rest : List ChatMsg).get
          ⟨j + 2, hi⟩) = rest.get ⟨j, hj⟩ := rfl
      rw [hget, hmod]
      exact ih j hj

/-- C10.  The chat history preserves the pairing invariant under every
AI-Chat page handler: starting from the empty history, the send handler
appends a user message only when the submitted input is non-empty and
always follows it immediately with exactly one assistant message, the
quick-question and clear handlers preserve the same shape, and every
well-paired history is an alternating user/assistant sequence of even
length that starts with a user message and contains no empty user
message. -/
theorem claim10_history_invariant :
    WellPaired []
    ∧ (∀ (b : Bool) (inp resp : String) (h : List ChatMsg),
        WellPaired h → WellPaired (sendHandler b inp resp h))
    ∧ (∀ (i : Nat) (resp : String) (h : List ChatMsg),
        WellPaired h → WellPaired (quickHandler i resp h))
    ∧ (∀ h : List ChatMsg, WellPaired h → WellPaired (clearHandler h))
    ∧ (∀ h : List ChatMsg, WellPaired h → h.length % 2 = 0)
    ∧ (∀ h : List ChatMsg, WellPaired h →
        ∀ msg ∈ h, msg.role = Role.user → msg.content ≠ "")
    ∧ (∀ h : List ChatMsg, WellPaired h → ∀ i (hi : i < h.length),
        (h.get ⟨i, hi⟩).role = if i % 2 = 0 then Role.user else Role.assistant) := by
  refine ⟨WellPaired.nil, ?_, ?_, ?_, wellPaired_even, wellPaired_user_nonempty,
    wellPaired_alternates⟩
  · intro b inp resp h hw
    unfold sendHandler
    split
    · next hcond => exact wellPaired_append h inp resp hcond.2 hw
    · exact hw
  · intro i resp h hw
    unfold quickHandler
    split
    · next hlen =>
      cases hq : questions.get? i with
      | none => exact hw
      | some q => exact wellPaired_append h q resp (questions_nonempty i q hq) hw
    · exact hw
  · intro h hw
    unfold clearHandler
    split
    · exact WellPaired.nil
    · exact hw

/-- Witness for C10: one send with non-empty input starting from the
empty history yields a well-paired history. -/
theorem claim10_witness :
    WellPaired (sendHandler true "How do I water a cactus?" "Sparingly." []) :=
  claim10_history_invariant.2.1 true "How do I water a cactus?" "Sparingly." []
    claim10_history_invariant.1
